import Mathlib

/-
Formal model of the MCR agent service, shallowly embedding the two source
files `src/pega_client.py` and `src/main.py`.

Modelling conventions:
- Python dictionaries become association lists; optional values become
  `Option`.
- Fallible Python code returns `Except PyErr _`; an `Except.error` value
  models a raised exception.
- The HTTP layer is modelled by passing an explicit function
  `respond : HttpRequest -> HttpResponse` standing for the backend; the
  requests actually sent over the network are returned alongside each
  result, so theorems can quantify over the outbound traffic of a call.
- The OpenAI Agents SDK (`Agent`, `Runner.run`, `function_tool`) is an
  external dependency, not part of this repository; it is modelled as a
  nondeterministic behaviour: a function from the prompt to the sequence of
  tool invocations the agent loop performs plus the final outcome (a final
  text, or an uncaught exception). Theorems quantify over all behaviours.
- Real time (timeouts) and the uuid generator are abstracted: the fresh
  uuid of a run is an arbitrary string parameter.
-/

namespace MCR

/-- Parsed JSON value, as returned by `resp.json()`.  The claims never
inspect the structure of response bodies, so nesting is kept flat. -/
inductive Json
  | null
  | str (s : String)
  | num (n : Int)
  | boolV (b : Bool)
deriving DecidableEq, Repr

/-- A JSON request body, as built by the tool wrappers:
a Python dict whose values are strings or `None`. -/
abbrev Payload := List (String × Option String)

/-- One outbound HTTP request, as constructed by
`httpx.AsyncClient.post(url, json=payload, headers=headers)`. -/
structure HttpRequest where
  method : String
  url : String
  headers : List (String × String)
  body : Payload
deriving DecidableEq, Repr

/-- The backend response to one request: HTTP status code and the parsed
JSON body (`resp.json()`); the text-to-JSON parse is abstracted since the
backend contract is JSON. -/
structure HttpResponse where
  status_code : Nat
  jsonBody : Json
deriving DecidableEq, Repr

/-- Python exceptions that the modelled code can raise. -/
inductive PyErr
  | attributeError (typeName field : String)
  | httpStatusError (status : Nat) (body : Json)
  | keyError (key : String)
  | runtimeError (msg : String)
deriving DecidableEq, Repr

/-- The process environment (`os.environ`). -/
structure Env where
  vars : List (String × String)
deriving DecidableEq, Repr

/-- `os.getenv(k)` / `os.environ.get(k)`. -/
def Env.get (e : Env) (k : String) : Option String :=
  (e.vars.find? (fun p => p.1 = k)).map (fun p => p.2)

/-- Python truthiness test `not x` for an `Optional[str]`:
true when the value is `None` or the empty string. -/
def pyFalsy (o : Option String) : Bool :=
  match o with
  | none => true
  | some s => s = ""

/-- Python `s.rstrip(c)` for a single character. -/
def rstripChar (s : String) (c : Char) : String :=
  String.mk ((s.toList.reverse.dropWhile (fun ch => ch = c)).reverse)

/-- UTF-8 encoding of one character, as `str.encode("utf-8")` produces. -/
def utf8Bytes (ch : Char) : List Nat :=
  let c := ch.toNat
  if c < 128 then [c]
  else if c < 2048 then [192 + c / 64, 128 + c % 64]
  else if c < 65536 then [224 + c / 4096, 128 + c / 64 % 64, 128 + c % 64]
  else [240 + c / 262144, 128 + c / 4096 % 64, 128 + c / 64 % 64, 128 + c % 64]

/-- UTF-8 byte sequence of a string. -/
def strBytes (s : String) : List Nat :=
  s.toList.flatMap utf8Bytes

/-- The standard base64 alphabet. -/
def b64Alphabet : String :=
  "ABCDEFGHIJKLMNOPQRSTUVWXYZabcdefghijklmnopqrstuvwxyz0123456789+/"

/-- Character of the base64 alphabet at a 6-bit index. -/
def b64Char (n : Nat) : Char := b64Alphabet.toList.getD n 'A'

/-- Standard base64 encoding with padding (`base64.b64encode`). -/
def b64EncodeCore : List Nat → List Char
  | [] => []
  | [a] =>
      let n := (a % 256) * 65536
      [b64Char (n / 262144), b64Char (n / 4096 % 64), '=', '=']
  | [a, b] =>
      let n := (a % 256) * 65536 + (b % 256) * 256
      [b64Char (n / 262144), b64Char (n / 4096 % 64), b64Char (n / 64 % 64), '=']
  | a :: b :: c :: rest =>
      let n := (a % 256) * 65536 + (b % 256) * 256 + (c % 256)
      [b64Char (n / 262144), b64Char (n / 4096 % 64),
       b64Char (n / 64 % 64), b64Char (n % 64)] ++ b64EncodeCore rest

/-- `base64.b64encode(s.encode("utf-8")).decode("utf-8")`. -/
def b64OfString (s : String) : String :=
  String.mk (b64EncodeCore (strBytes s))

/-- The state of a constructed `PegaClient` instance
(`pega_client.py`, lines 11-20).  `timeout_s` keeps the raw string value of
`PEGA_TIMEOUT_S` (default `"20"`); the float conversion is abstracted since
real-time behaviour is out of scope. -/
structure PegaClient where
  base_url : String
  timeout_s : String
  username : String
  password : String
deriving DecidableEq, Repr

/-- `PegaClient.__init__`: reads `PEGA_BASE_URL` with `os.environ[...]`
(raising `KeyError` when absent), strips trailing slashes, reads the basic
credentials with `os.getenv`, and raises `RuntimeError` when either is
missing or empty (Python truthiness). -/
def PegaClient.init (env : Env) : Except PyErr PegaClient :=
  match env.get "PEGA_BASE_URL" with
  | none => .error (.keyError "PEGA_BASE_URL")
  | some burl =>
      let base_url := rstripChar burl '/'
      let timeout_s := (env.get "PEGA_TIMEOUT_S").getD "20"
      let username := env.get "PEGA_BASIC_USERNAME"
      let password := env.get "PEGA_BASIC_PASSWORD"
      if pyFalsy username || pyFalsy password then
        .error (.runtimeError "Missing PEGA_BASIC_USERNAME or PEGA_BASIC_PASSWORD")
      else
        .ok { base_url := base_url, timeout_s := timeout_s,
              username := username.getD "", password := password.getD "" }

/-- `PegaClient._headers` (`pega_client.py`, lines 22-29): fresh header dict
with `Accept`, `Content-Type` and a Basic `Authorization` header built from
`username:password`. -/
def PegaClient._headers (c : PegaClient) : List (String × String) :=
  [("Accept", "application/json"),
   ("Content-Type", "application/json"),
   ("Authorization", "Basic " ++ b64OfString (c.username ++ ":" ++ c.password))]

/-- The correlation header entries added by `call_tool`:
`headers["X-Correlation-Id"] = correlation_id` is executed only under
`if correlation_id:`, i.e. only for a non-`None`, non-empty id. -/
def corrHeader (correlation_id : Option String) : List (String × String) :=
  match correlation_id with
  | none => []
  | some s => if s = "" then [] else [("X-Correlation-Id", s)]

/-- The single POST request that `PegaClient.call_tool` constructs:
`POST {base_url}/mcr/tickets/tools/{tool_name}` with `_headers()` plus the
optional correlation header, and the payload as JSON body. -/
def PegaClient.builtRequest (c : PegaClient) (tool_name : String)
    (payload : Payload) (correlation_id : Option String) : HttpRequest :=
  { method := "POST"
  , url := c.base_url ++ "/mcr/tickets/tools/" ++ tool_name
  , headers := c._headers ++ corrHeader correlation_id
  , body := payload }

/-- httpx `Response.is_success`: a 2xx status. -/
def is2xx (n : Nat) : Bool := 200 ≤ n && n ≤ 299

/-- `PegaClient.call_tool` (`pega_client.py`, lines 31-78): sends exactly one
POST request; `resp.raise_for_status()` raises `httpx.HTTPStatusError` on any
non-2xx status, otherwise the parsed JSON body is returned.  The second
component of the result is the list of requests actually sent. -/
def PegaClient.call_tool (c : PegaClient) (tool_name : String)
    (payload : Payload) (correlation_id : Option String)
    (respond : HttpRequest → HttpResponse) :
    Except PyErr Json × List HttpRequest :=
  let req := c.builtRequest tool_name payload correlation_id
  let resp := respond req
  if is2xx resp.status_code then
    (.ok resp.jsonBody, [req])
  else
    (.error (.httpStatusError resp.status_code resp.jsonBody), [req])

/-- Signature shared by the tool wrappers for the method they look up on the
client: a path-or-tool name, a payload, an optional correlation id and the
backend, yielding a result plus the outbound requests. -/
def BoundPost : Type :=
  String → Payload → Option String →
    (HttpRequest → HttpResponse) → (Except PyErr Json × List HttpRequest)

/-- The method table of class `PegaClient` at this signature, as defined in
`pega_client.py`: besides `__init__` and the zero-argument `_headers`, the
class defines exactly one method, `call_tool`.  Python attribute lookup for
a method name on a `PegaClient` instance consults this table. -/
def PegaClient.methodTable (c : PegaClient) : List (String × BoundPost) :=
  [("call_tool", c.call_tool)]

/-- Python attribute lookup `pega.<name>` for a callable of the wrapper
signature: `none` means the lookup fails and `AttributeError` is raised. -/
def PegaClient.getattrCallable (c : PegaClient) (name : String) :
    Option BoundPost :=
  (c.methodTable.find? (fun p => p.1 = name)).map (fun p => p.2)

/-- Body shared by every thin tool wrapper in `main.py`:
`return await pega.post(path, payload, correlation_id=...)`.  The attribute
lookup of `post` happens before any request is built; when it fails the
wrapper raises `AttributeError` and no HTTP request is issued. -/
def toolWrapperBody (c : PegaClient) (path : String) (payload : Payload)
    (correlation_id : Option String) (respond : HttpRequest → HttpResponse) :
    Except PyErr Json × List HttpRequest :=
  match c.getattrCallable "post" with
  | none => (.error (.attributeError "PegaClient" "post"), [])
  | some f => f path payload correlation_id respond

/-- `checking_ticket_eligibility` (`main.py`, lines 50-57). -/
def checking_ticket_eligibility (c : PegaClient) (ticket_number : String)
    (correlation_id : Option String) (respond : HttpRequest → HttpResponse) :
    Except PyErr Json × List HttpRequest :=
  toolWrapperBody c "/mcr/tickets/eligibility"
    [("ticketNumber", some ticket_number)] correlation_id respond

/-- `checking_ticket_details` (`main.py`, lines 59-66). -/
def checking_ticket_details (c : PegaClient) (ticket_number : String)
    (correlation_id : Option String) (respond : HttpRequest → HttpResponse) :
    Except PyErr Json × List HttpRequest :=
  toolWrapperBody c "/mcr/tickets/details"
    [("ticketNumber", some ticket_number)] correlation_id respond

/-- `creating_plea_online_case` (`main.py`, lines 68-76). -/
def creating_plea_online_case (c : PegaClient) (ticket_number plea : String)
    (defendant_email : Option String) (correlation_id : Option String)
    (respond : HttpRequest → HttpResponse) :
    Except PyErr Json × List HttpRequest :=
  toolWrapperBody c "/mcr/cases/plea-online"
    [("ticketNumber", some ticket_number), ("plea", some plea),
     ("defendantEmail", defendant_email)] correlation_id respond

/-- `creating_request_plea_offer_case` (`main.py`, lines 78-86). -/
def creating_request_plea_offer_case (c : PegaClient)
    (ticket_number reason : String) (defendant_email : Option String)
    (correlation_id : Option String) (respond : HttpRequest → HttpResponse) :
    Except PyErr Json × List HttpRequest :=
  toolWrapperBody c "/mcr/cases/request-plea-offer"
    [("ticketNumber", some ticket_number), ("reason", some reason),
     ("defendantEmail", defendant_email)] correlation_id respond

/-- `initiating_prosecutor_plea_offer_case` (`main.py`, lines 88-95). -/
def initiating_prosecutor_plea_offer_case (c : PegaClient)
    (ticket_number : String) (correlation_id : Option String)
    (respond : HttpRequest → HttpResponse) :
    Except PyErr Json × List HttpRequest :=
  toolWrapperBody c "/mcr/cases/prosecutor-offer/initiate"
    [("ticketNumber", some ticket_number)] correlation_id respond

/-- `show_prosecutor_plea_offer_list` (`main.py`, lines 97-104). -/
def show_prosecutor_plea_offer_list (c : PegaClient) (ticket_number : String)
    (correlation_id : Option String) (respond : HttpRequest → HttpResponse) :
    Except PyErr Json × List HttpRequest :=
  toolWrapperBody c "/mcr/tickets/prosecutor-offers"
    [("ticketNumber", some ticket_number)] correlation_id respond

/-- `send_email_with_case_confirmation` (`main.py`, lines 106-116). -/
def send_email_with_case_confirmation (c : PegaClient)
    (case_id to_email : String) (correlation_id : Option String)
    (respond : HttpRequest → HttpResponse) :
    Except PyErr Json × List HttpRequest :=
  toolWrapperBody c ("/mcr/cases/" ++ case_id ++ "/email/preview")
    [("toEmail", some to_email)] correlation_id respond

/-- Python `str.strip()`: remove leading and trailing whitespace. -/
def pyStrip (s : String) : String :=
  String.mk
    (((s.toList.dropWhile Char.isWhitespace).reverse.dropWhile
        Char.isWhitespace).reverse)

/-- `AgentRunRequest` (`main.py`, lines 28-35).  The context values are kept
as strings; `agent_run` never reads them. -/
structure AgentRunRequest where
  prompt : String
  session_id : Option String := none
  correlation_id : Option String := none
  context : List (String × String) := []
  output : String := "json"
deriving DecidableEq, Repr

/-- `AgentRunResponse` (`main.py`, lines 38-42).  Each tool-call entry is a
small string dict, matching the `[{"debug_attr": attr}]` the code builds. -/
structure AgentRunResponse where
  correlation_id : String
  output : String
  tool_calls : List (List (String × String)) := []
deriving DecidableEq, Repr

/-- What the `/agent/run` endpoint terminates with: a 200 response carrying
an `AgentRunResponse`, or an `HTTPException` with a status code and detail
string (`main.py`, lines 204-205). -/
inductive RunOutcome
  | ok (resp : AgentRunResponse)
  | httpError (status_code : Nat) (detail : String)
deriving DecidableEq, Repr

/-- How the external `Runner.run` call ends: it returns a run result whose
extracted final text is `t`, or it raises an exception with message `e`. -/
inductive AgentFinal
  | finalText (t : String)
  | raised (e : String)
deriving DecidableEq, Repr

/-- One tool invocation performed by the external agent loop: one of the
seven `function_tool` wrappers of `main.py`, with arguments of the agent
model's choosing (including the optional `correlation_id` parameter). -/
inductive ToolInvocation
  | eligibility (ticket_number : String) (correlation_id : Option String)
  | details (ticket_number : String) (correlation_id : Option String)
  | pleaOnline (ticket_number plea : String) (defendant_email : Option String)
      (correlation_id : Option String)
  | requestPleaOffer (ticket_number reason : String)
      (defendant_email : Option String) (correlation_id : Option String)
  | prosecutorInitiate (ticket_number : String)
      (correlation_id : Option String)
  | prosecutorList (ticket_number : String) (correlation_id : Option String)
  | emailConfirmation (case_id to_email : String)
      (correlation_id : Option String)
deriving DecidableEq, Repr

/-- Observable behaviour of one `Runner.run` call of the external Agents
SDK: the ordered tool invocations the loop performs, then how it ends.
The SDK is an external dependency, so theorems quantify over behaviours. -/
structure AgentBehavior where
  invocations : List ToolInvocation
  final : AgentFinal
deriving DecidableEq, Repr

/-- Execute one tool invocation against the shared client: dispatch to the
corresponding wrapper from `main.py`. -/
def execInvocation (c : PegaClient) (respond : HttpRequest → HttpResponse) :
    ToolInvocation → Except PyErr Json × List HttpRequest
  | .eligibility t cid => checking_ticket_eligibility c t cid respond
  | .details t cid => checking_ticket_details c t cid respond
  | .pleaOnline t p de cid => creating_plea_online_case c t p de cid respond
  | .requestPleaOffer t r de cid =>
      creating_request_plea_offer_case c t r de cid respond
  | .prosecutorInitiate t cid =>
      initiating_prosecutor_plea_offer_case c t cid respond
  | .prosecutorList t cid => show_prosecutor_plea_offer_list c t cid respond
  | .emailConfirmation ci te cid =>
      send_email_with_case_confirmation c ci te cid respond

/-- Whether an invocation is a case-creation operation (a call to one of the
three case-creating wrappers). -/
def isCreationInvocation : ToolInvocation → Bool
  | .pleaOnline _ _ _ _ => true
  | .requestPleaOffer _ _ _ _ => true
  | .prosecutorInitiate _ _ => true
  | _ => false

/-- Whether an invocation is the confirmation/notification operation
(`send_email_with_case_confirmation`). -/
def isEmailInvocation : ToolInvocation → Bool
  | .emailConfirmation _ _ _ => true
  | _ => false

/-- The agent instructions string of `main.py` (lines 122-143), kept for
traceability: the only gating of tool order in the source is this prose
prompt to the language model, not code. -/
def AGENT_INSTRUCTIONS : String :=
  "You are the Municipal Case Resolution assistant for NJ Courts.\n" ++
  "You must use tools to do work. Do NOT invent outcomes.\n" ++
  "Workflow rules:\n" ++
  "1) If creating/initiating a case, call checking_ticket_eligibility first.\n" ++
  "   - If ineligible, stop and return a clear result.\n" ++
  "2) If user pleads guilty/not guilty:\n" ++
  "   - call creating_plea_online_case.\n" ++
  "   - call send_email_with_case_confirmation.\n" ++
  "3) If user requests prosecutor offer / disputes:\n" ++
  "   - call creating_request_plea_offer_case.\n" ++
  "   - call send_email_with_case_confirmation.\n" ++
  "4) If user asks to initiate prosecutor workflow:\n" ++
  "   - call initiating_prosecutor_plea_offer_case.\n" ++
  "   - call send_email_with_case_confirmation.\n" ++
  "5) If user asks to email confirmation/details:\n" ++
  "   - Only do it by calling send_email_with_case_confirmation after you have a case_id.\n" ++
  "Output:\n" ++
  "- If output format requested is JSON: return a short JSON UI model with cards.\n" ++
  "- If output format requested is HTML: return a single HTML fragment, no scripts."

/-- Python `a or b` on an `Optional[str]`:
`req.correlation_id or str(uuid.uuid4())` falls through when the id is
`None` or the empty string. -/
def orElseStr (a : Option String) (b : String) : String :=
  match a with
  | none => b
  | some s => if s = "" then b else s

/-- The prompt built by `agent_run` (`main.py`, lines 181-185). -/
def buildPrompt (correlation_id output_format prompt : String) : String :=
  "[correlation_id=" ++ correlation_id ++ "]\n" ++
  "[output_format=" ++ output_format ++ "]\n" ++ prompt

/-- `_extract_text` (`main.py`, lines 162-169) applied to a run result whose
first string attribute among `final_output`, `output_text`, ... is `t`:
return `t` stripped when non-empty, else fall back to `str(run_result)`
stripped.  The SDK-version attribute probing is collapsed into the two
string parameters, since the run result object itself is external. -/
def _extract_text (t : String) (fallback : String) : String :=
  if pyStrip t ≠ "" then pyStrip t else pyStrip fallback

/-- The `/agent/run` endpoint `agent_run` (`main.py`, lines 175-205):
assign the correlation id (fresh uuid when absent or empty), build the
prompt, hand it to the external agent loop, and either return the 200
response with the extracted final text, the correlation id and the
debug tool-call summary, or map any raised exception to an
`HTTPException(500, "Agent run failed: ...")`.

`freshUuid` is the value `str(uuid.uuid4())` would produce; `behave` is the
external agent behaviour as a function of the prompt; `fallbackText` is
`str(run_result)`; `debugAttr` is the first of `new_items`, `items`,
`steps`, `trace` present on the run result, if any. -/
def agent_run (req : AgentRunRequest) (freshUuid : String)
    (behave : String → AgentBehavior) (fallbackText : String)
    (debugAttr : Option String) : RunOutcome :=
  let correlation_id := orElseStr req.correlation_id freshUuid
  let prompt := buildPrompt correlation_id req.output req.prompt
  match (behave prompt).final with
  | .raised e => .httpError 500 ("Agent run failed: " ++ e)
  | .finalText t =>
      let final := _extract_text t fallbackText
      let tool_calls :=
        match debugAttr with
        | some a => [[("debug_attr", a)]]
        | none => []
      .ok { correlation_id := correlation_id, output := final,
            tool_calls := tool_calls }

/-- The tool operations the agent loop executes during the run of
`agent_run req` (the invocations performed inside `Runner.run`). -/
def executedOperations (req : AgentRunRequest) (freshUuid : String)
    (behave : String → AgentBehavior) : List ToolInvocation :=
  (behave (buildPrompt (orElseStr req.correlation_id freshUuid) req.output
    req.prompt)).invocations

/-- All HTTP requests sent to the backend during one run of `agent_run`:
the concatenated outbound traffic of every executed tool invocation. -/
def agent_run_requests (c : PegaClient) (req : AgentRunRequest)
    (freshUuid : String) (behave : String → AgentBehavior)
    (respond : HttpRequest → HttpResponse) : List HttpRequest :=
  ((executedOperations req freshUuid behave).map
    (fun inv => (execInvocation c respond inv).2)).flatten

/-- The backend requests of the case-creation operations of a run. -/
def creationRequests (c : PegaClient) (req : AgentRunRequest)
    (freshUuid : String) (behave : String → AgentBehavior)
    (respond : HttpRequest → HttpResponse) : List HttpRequest :=
  (((executedOperations req freshUuid behave).filter isCreationInvocation).map
    (fun inv => (execInvocation c respond inv).2)).flatten

/-- The backend requests of the notification operation of a run. -/
def emailRequests (c : PegaClient) (req : AgentRunRequest)
    (freshUuid : String) (behave : String → AgentBehavior)
    (respond : HttpRequest → HttpResponse) : List HttpRequest :=
  (((executedOperations req freshUuid behave).filter isEmailInvocation).map
    (fun inv => (execInvocation c respond inv).2)).flatten

/-- Service startup and one request (`main.py`, line 17): the module-level
`pega = PegaClient()` runs at import, before the app serves anything; a
workflow run can only execute when client construction succeeded. -/
def serviceRun (env : Env) (req : AgentRunRequest) (freshUuid : String)
    (behave : String → AgentBehavior) (fallbackText : String)
    (debugAttr : Option String) : Option RunOutcome :=
  match PegaClient.init env with
  | .error _ => none
  | .ok _ => some (agent_run req freshUuid behave fallbackText debugAttr)

/-- Eligibility verdict vocabulary of the claims; the source code itself
tracks no verdict (there is no `CaseWorkflowState` in the repository), so
the verdict appears in theorems only as an abstract parameter. -/
inductive Verdict
  | unknown
  | eligible
  | ineligible
deriving DecidableEq, Repr

/-! Concrete fixtures used by witnesses and counterexamples. -/

/-- An empty process environment. -/
def env0 : Env := ⟨[]⟩

/-- An environment with all three required variables set. -/
def envFull : Env :=
  ⟨[("PEGA_BASE_URL", "https://pega.example/"),
    ("PEGA_BASIC_USERNAME", "u"),
    ("PEGA_BASIC_PASSWORD", "p")]⟩

/-- The client that `PegaClient.__init__` constructs from `envFull`. -/
def c0 : PegaClient :=
  { base_url := "https://pega.example", timeout_s := "20",
    username := "u", password := "p" }

/-- A backend that answers 200 with a null body. -/
def respond200 : HttpRequest → HttpResponse := fun _ => ⟨200, .null⟩

/-- A backend that answers 500 with a string body. -/
def respond500 : HttpRequest → HttpResponse := fun _ => ⟨500, .str "boom"⟩

/-- An inbound request without a correlation id. -/
def reqNoCid : AgentRunRequest := { prompt := "plead guilty on ticket T-123" }

/-- An inbound request carrying correlation id `cid-1`. -/
def reqWithCid : AgentRunRequest :=
  { prompt := "plead guilty on ticket T-123", correlation_id := some "cid-1" }

/-- An inbound request asking for the HTML output mode. -/
def reqHtml : AgentRunRequest :=
  { prompt := "plead guilty on ticket T-123",
    correlation_id := some "cid-1", output := "html" }

/-- An agent behaviour performing no tool invocation and answering Done. -/
def behaveClean : String → AgentBehavior :=
  fun _ => ⟨[], .finalText "Done"⟩

/-- An agent behaviour whose single tool invocation fails (as every tool
invocation does), yet which answers Done exactly like `behaveClean`. -/
def behaveFailedTool : String → AgentBehavior :=
  fun _ => ⟨[.eligibility "T-1" (some "cid-1")], .finalText "Done"⟩

/-- An agent behaviour performing nine tool invocations and finishing
normally. -/
def behaveNine : String → AgentBehavior :=
  fun _ => ⟨List.replicate 9 (.eligibility "T-1" none), .finalText "done"⟩

/-- An agent behaviour invoking the notification wrapper although no case
was ever created. -/
def behaveEmail : String → AgentBehavior :=
  fun _ => ⟨[.emailConfirmation "C-9" "d@example.org" none], .finalText "sent"⟩

/-- An agent behaviour whose final text is a script tag. -/
def behaveScript : String → AgentBehavior :=
  fun _ => ⟨[], .finalText "<script>alert(1)</script>"⟩

/-! Helper lemmas shared by the verification theorems. -/

/-- Attribute lookup of `post` on a `PegaClient` fails: the class defines no
method of that name. -/
lemma getattrCallable_post (c : PegaClient) :
    c.getattrCallable "post" = none := rfl

/-- Every tool wrapper body raises `AttributeError` at the `pega.post`
lookup and issues no HTTP request. -/
lemma toolWrapperBody_eq (c : PegaClient) (path : String) (payload : Payload)
    (cid : Option String) (respond : HttpRequest → HttpResponse) :
    toolWrapperBody c path payload cid respond =
      (.error (.attributeError "PegaClient" "post"), []) := rfl

/-- Every tool invocation, whichever wrapper and arguments, raises
`AttributeError` and issues no HTTP request. -/
lemma execInvocation_eq (c : PegaClient) (respond : HttpRequest → HttpResponse)
    (inv : ToolInvocation) :
    execInvocation c respond inv =
      (.error (.attributeError "PegaClient" "post"), []) := by
  cases inv <;> rfl

/-- The outbound traffic of any list of tool invocations is empty. -/
lemma invocations_traffic_nil (c : PegaClient)
    (respond : HttpRequest → HttpResponse) (l : List ToolInvocation) :
    (l.map (fun inv => (execInvocation c respond inv).2)).flatten = [] := by
  induction l with
  | nil => rfl
  | cons a l ih => simp [execInvocation_eq, ih]

/-- No run of `agent_run` ever sends a request to the backend. -/
lemma agent_run_requests_nil (c : PegaClient) (req : AgentRunRequest)
    (freshUuid : String) (behave : String → AgentBehavior)
    (respond : HttpRequest → HttpResponse) :
    agent_run_requests c req freshUuid behave respond = [] :=
  invocations_traffic_nil c respond _

/-- Characterization of `agent_run` when the external loop returns a final
text: the endpoint answers 200 with the assigned correlation id, the
stripped text and the debug summary. -/
lemma agent_run_finalText (req : AgentRunRequest) (freshUuid : String)
    (behave : String → AgentBehavior) (fallbackText : String)
    (debugAttr : Option String) (t : String)
    (hb : (behave (buildPrompt (orElseStr req.correlation_id freshUuid)
        req.output req.prompt)).final = .finalText t) :
    agent_run req freshUuid behave fallbackText debugAttr =
      .ok { correlation_id := orElseStr req.correlation_id freshUuid
          , output := _extract_text t fallbackText
          , tool_calls :=
              match debugAttr with
              | some a => [[("debug_attr", a)]]
              | none => [] } := by
  unfold agent_run
  simp only [hb]

/-- Characterization of `agent_run` when the external loop raises: the
endpoint answers with the generic 500 error. -/
lemma agent_run_raised (req : AgentRunRequest) (freshUuid : String)
    (behave : String → AgentBehavior) (fallbackText : String)
    (debugAttr : Option String) (e : String)
    (hb : (behave (buildPrompt (orElseStr req.correlation_id freshUuid)
        req.output req.prompt)).final = .raised e) :
    agent_run req freshUuid behave fallbackText debugAttr =
      .httpError 500 ("Agent run failed: " ++ e) := by
  unfold agent_run
  simp only [hb]

/-- Sanity check of the construction path: `envFull` yields `c0`, with the
trailing slash of the base URL stripped and `dTpw` the base64 of `u:p`. -/
lemma init_envFull : PegaClient.init envFull = .ok c0 := rfl


/-! The claim theorems. -/

/-- Claim C1: for every run, every outbound backend call carries the run
correlation identifier as the `X-Correlation-Id` header, the final output
carries that identifier, and when the inbound request has no identifier a
fresh one is assigned at the start of the run.  The outbound conjunct holds
vacuously: no run ever issues a backend call, because every tool wrapper
raises `AttributeError` at the `pega.post` lookup; the final 200 response
does carry the assigned identifier, and an absent inbound identifier is
replaced by the fresh uuid. -/
theorem C1_correlation_id_end_to_end (c : PegaClient) (req : AgentRunRequest)
    (freshUuid : String) (behave : String → AgentBehavior)
    (respond : HttpRequest → HttpResponse) (fallbackText : String)
    (debugAttr : Option String) :
    (∀ r ∈ agent_run_requests c req freshUuid behave respond,
        ("X-Correlation-Id", orElseStr req.correlation_id freshUuid) ∈ r.headers)
    ∧ (∀ resp, agent_run req freshUuid behave fallbackText debugAttr = .ok resp →
        resp.correlation_id = orElseStr req.correlation_id freshUuid)
    ∧ (req.correlation_id = none →
        orElseStr req.correlation_id freshUuid = freshUuid) := by
  refine ⟨?_, ?_, ?_⟩
  · intro r hr
    rw [agent_run_requests_nil] at hr
    cases hr
  · intro resp h
    rcases hb : (behave (buildPrompt (orElseStr req.correlation_id freshUuid)
        req.output req.prompt)).final with t | e
    · rw [agent_run_finalText req freshUuid behave fallbackText debugAttr t hb] at h
      injection h with h2
      rw [← h2]
    · rw [agent_run_raised req freshUuid behave fallbackText debugAttr e hb] at h
      cases h
  · intro h
    rw [h]
    rfl

/-- Witness for C1 at concrete inputs: an inbound request without an
identifier gets the fresh uuid, and the 200 response carries it. -/
theorem C1_witness :
    orElseStr reqNoCid.correlation_id "uuid-1" = "uuid-1"
    ∧ AgentRunResponse.correlation_id ⟨"uuid-1", "Done", []⟩ =
        orElseStr reqNoCid.correlation_id "uuid-1" := by
  have h := C1_correlation_id_end_to_end c0 reqNoCid "uuid-1" behaveClean
    respond200 "fallback" none
  exact ⟨h.2.2 rfl, h.2.1 ⟨"uuid-1", "Done", []⟩ rfl⟩

/-- Claim C2: no backend network call for case creation is ever issued while
the eligibility verdict is unknown or ineligible.  In the source the only
gating is the prose `AGENT_INSTRUCTIONS` prompt; the property nevertheless
holds, vacuously, since no case-creation wrapper ever reaches the network:
the `pega.post` lookup raises first.  In particular the verdict of every
ticket stays unknown for the whole run. -/
theorem C2_no_creation_call_when_not_eligible (c : PegaClient)
    (req : AgentRunRequest) (freshUuid : String)
    (behave : String → AgentBehavior) (respond : HttpRequest → HttpResponse)
    (v : Verdict) (hv : v = .unknown ∨ v = .ineligible) :
    creationRequests c req freshUuid behave respond = [] :=
  invocations_traffic_nil c respond _

/-- Witness for C2: concrete run, verdict unknown, no creation request. -/
theorem C2_witness :
    creationRequests c0 reqNoCid "uuid-2"
      (fun _ => ⟨[.pleaOnline "T-123" "guilty" none (some "cid-1")],
        .finalText "ok"⟩) respond200 = [] :=
  C2_no_creation_call_when_not_eligible c0 reqNoCid "uuid-2"
    (fun _ => ⟨[.pleaOnline "T-123" "guilty" none (some "cid-1")],
      .finalText "ok"⟩) respond200 .unknown (Or.inl rfl)

/-- Claim C3: the email confirmation operation never reaches the backend
while the run holds no case identifier.  The source tracks no workflow
state; the property holds vacuously because the notification wrapper never
issues a network call (the `pega.post` lookup raises first), and indeed no
case identifier can ever be obtained since creation calls never reach the
backend either. -/
theorem C3_no_notification_without_case_id (c : PegaClient)
    (req : AgentRunRequest) (freshUuid : String)
    (behave : String → AgentBehavior) (respond : HttpRequest → HttpResponse)
    (caseId : Option String) (hAbsent : caseId = none) :
    emailRequests c req freshUuid behave respond = [] :=
  invocations_traffic_nil c respond _

/-- Witness for C3: concrete run invoking the notification wrapper with an
absent case identifier; no notification request is issued. -/
theorem C3_witness :
    emailRequests c0 reqWithCid "uuid-3" behaveEmail respond200 = [] :=
  C3_no_notification_without_case_id c0 reqWithCid "uuid-3" behaveEmail
    respond200 none rfl

/-- Claim C4: every tool wrapper invokes `post` on the shared `PegaClient`,
which defines only `call_tool` (besides `__init__` and `_headers`), so every
invocation of every wrapper raises `AttributeError` before any HTTP request
is constructed or sent. -/
theorem C4_wrappers_raise_attribute_error (c : PegaClient)
    (respond : HttpRequest → HttpResponse) (inv : ToolInvocation) :
    c.getattrCallable "post" = none
    ∧ (execInvocation c respond inv).1 =
        .error (.attributeError "PegaClient" "post")
    ∧ (execInvocation c respond inv).2 = [] := by
  have h := execInvocation_eq c respond inv
  exact ⟨rfl, by rw [h], by rw [h]⟩

/-- Counterexample to claim C5 at concrete inputs: a run whose agent loop
performs nine tool operations (more than the step budget of eight the spec
gives as example) terminates as a plain 200 success, not with any
StepBudgetExceeded outcome, and operation nine is executed.  The source
sets no step budget and defines no StepBudgetExceeded anywhere; any bound
lives inside the external Agents SDK. -/
theorem C5_counterexample :
    (executedOperations reqWithCid "uuid-5" behaveNine).length = 9
    ∧ 8 < 9
    ∧ agent_run reqWithCid "uuid-5" behaveNine "fallback" none =
        .ok { correlation_id := "cid-1", output := "done", tool_calls := [] } := by
  exact ⟨by decide, by decide, by decide⟩

/-- Claim C5 amended: the repository code imposes no step budget of its own
and never produces a StepBudgetExceeded outcome; for every count n there is
an agent behaviour under which the run executes n tool operations and still
terminates as a plain 200 success. -/
theorem C5_amended_no_step_budget (req : AgentRunRequest)
    (freshUuid fallbackText : String) (n : Nat) :
    ∃ behave : String → AgentBehavior,
      (executedOperations req freshUuid behave).length = n
      ∧ ∃ resp, agent_run req freshUuid behave fallbackText none = .ok resp := by
  refine ⟨fun _ => ⟨List.replicate n (.eligibility "T-1" none), .finalText "x"⟩,
    ?_, ?_⟩
  · simp [executedOperations]
  · exact ⟨_, agent_run_finalText req freshUuid _ fallbackText none "x" rfl⟩

/-- Counterexample to claim C6 at concrete inputs: a backend answering 500
makes `call_tool` raise `httpx.HTTPStatusError` (via `raise_for_status`)
instead of returning a failed ToolResult value. -/
theorem C6_counterexample :
    (PegaClient.call_tool c0 "eligibility" [("ticketNumber", some "T-123")]
      (some "cid-1") respond500).1 =
      .error (.httpStatusError 500 (.str "boom")) := rfl

/-- Claim C6 amended: a non-2xx response makes `call_tool` raise an
`HTTPStatusError` carrying the status and body, rather than return a failed
ToolResult; no automatic retry occurs: exactly one POST request is issued
per `call_tool` invocation, whatever the response status, and a 2xx
response yields the parsed body. -/
theorem C6_amended_non2xx_raises_no_retry (c : PegaClient) (tool : String)
    (payload : Payload) (cid : Option String)
    (respond : HttpRequest → HttpResponse) :
    (PegaClient.call_tool c tool payload cid respond).2 =
        [c.builtRequest tool payload cid]
    ∧ (is2xx (respond (c.builtRequest tool payload cid)).status_code = false →
        (PegaClient.call_tool c tool payload cid respond).1 =
          .error (.httpStatusError
            (respond (c.builtRequest tool payload cid)).status_code
            (respond (c.builtRequest tool payload cid)).jsonBody))
    ∧ (is2xx (respond (c.builtRequest tool payload cid)).status_code = true →
        (PegaClient.call_tool c tool payload cid respond).1 =
          .ok (respond (c.builtRequest tool payload cid)).jsonBody) := by
  refine ⟨?_, ?_, ?_⟩
  · rcases h2 : is2xx (respond (c.builtRequest tool payload cid)).status_code
      with _ | _ <;> simp [PegaClient.call_tool, h2]
  · intro h
    simp [PegaClient.call_tool, h]
  · intro h
    simp [PegaClient.call_tool, h]

/-- Witness for the amended C6 at concrete inputs: one request issued, and
the 500 response raises the status error. -/
theorem C6_amended_witness :
    (PegaClient.call_tool c0 "eligibility" [] none respond500).2 =
        [c0.builtRequest "eligibility" [] none]
    ∧ (PegaClient.call_tool c0 "eligibility" [] none respond500).1 =
        .error (.httpStatusError 500 (.str "boom")) := by
  have h := C6_amended_non2xx_raises_no_retry c0 "eligibility" [] none respond500
  exact ⟨h.1, h.2.1 (by decide)⟩

/-- Counterexample to claim C7 at concrete inputs: when no correlation id is
passed to `call_tool` (the wrapper parameter defaults to `None` and nothing
forces the agent to pass one), the outbound request carries no
`X-Correlation-Id` header at all, so not every outbound operation carries
the run correlation identifier. -/
theorem C7_counterexample :
    (PegaClient.call_tool c0 "eligibility" [("ticketNumber", some "T-123")]
        none respond200).2 =
      [{ method := "POST"
       , url := "https://pega.example/mcr/tickets/tools/eligibility"
       , headers := [("Accept", "application/json"),
                     ("Content-Type", "application/json"),
                     ("Authorization", "Basic dTpw")]
       , body := [("ticketNumber", some "T-123")] }]
    ∧ ((c0.builtRequest "eligibility" [("ticketNumber", some "T-123")]
        none).headers.map Prod.fst).contains "X-Correlation-Id" = false := by
  exact ⟨by decide, by decide⟩

/-- Claim C7 amended: every outbound backend operation is a POST to
`{base}/mcr/tickets/tools/{tool_name}` (a single unified endpoint, the tool
name standing for the resource path) with `Accept` and `Content-Type` set
to application/json and exactly one authentication header, always Basic
(no Bearer scheme exists in the code); the `X-Correlation-Id` header equals
the correlation id passed for the call and is attached exactly when that id
is present and non-empty; a 2xx response body is the returned payload and
any other status raises a status error. -/
theorem C7_amended_request_shape (c : PegaClient) (tool : String)
    (payload : Payload) (cid : Option String)
    (respond : HttpRequest → HttpResponse) :
    (c.builtRequest tool payload cid).method = "POST"
    ∧ (c.builtRequest tool payload cid).url =
        c.base_url ++ "/mcr/tickets/tools/" ++ tool
    ∧ (c.builtRequest tool payload cid).body = payload
    ∧ (c.builtRequest tool payload cid).headers =
        [("Accept", "application/json"),
         ("Content-Type", "application/json"),
         ("Authorization",
           "Basic " ++ b64OfString (c.username ++ ":" ++ c.password))]
        ++ corrHeader cid
    ∧ (∀ s, cid = some s → s ≠ "" →
        ("X-Correlation-Id", s) ∈ (c.builtRequest tool payload cid).headers)
    ∧ ((c.builtRequest tool payload cid).headers.filter
          (fun p => decide (p.1 = "Authorization")) =
        [("Authorization",
           "Basic " ++ b64OfString (c.username ++ ":" ++ c.password))])
    ∧ (is2xx (respond (c.builtRequest tool payload cid)).status_code = true →
        (PegaClient.call_tool c tool payload cid respond).1 =
          .ok (respond (c.builtRequest tool payload cid)).jsonBody)
    ∧ (is2xx (respond (c.builtRequest tool payload cid)).status_code = false →
        (PegaClient.call_tool c tool payload cid respond).1 =
          .error (.httpStatusError
            (respond (c.builtRequest tool payload cid)).status_code
            (respond (c.builtRequest tool payload cid)).jsonBody)) := by
  refine ⟨rfl, rfl, rfl, rfl, ?_, ?_, ?_, ?_⟩
  · intro s hs hne
    subst hs
    simp [PegaClient.builtRequest, corrHeader, hne, PegaClient._headers]
  · rcases cid with _ | s
    · rfl
    · by_cases hs : s = ""
      · subst hs
        rfl
      · simp [PegaClient.builtRequest, corrHeader, hs, PegaClient._headers,
          List.filter]
  · intro h
    simp [PegaClient.call_tool, h]
  · intro h
    simp [PegaClient.call_tool, h]

/-- Witness for the amended C7 at concrete inputs: a non-empty correlation
id is attached as the `X-Correlation-Id` header. -/
theorem C7_amended_witness :
    ("X-Correlation-Id", "cid-1") ∈
      (c0.builtRequest "eligibility" [] (some "cid-1")).headers := by
  have h := C7_amended_request_shape c0 "eligibility" [] (some "cid-1")
    respond200
  exact h.2.2.2.2.1 "cid-1" rfl (by decide)

/-- Counterexample to claim C8 at concrete inputs: with the HTML output mode
requested, a final text containing a script tag sourced from upstream is
emitted verbatim in the 200 response; `_extract_text` only strips
whitespace and no escaping exists anywhere in the code. -/
theorem C8_counterexample :
    agent_run reqHtml "uuid-8" behaveScript "fallback" none =
      .ok { correlation_id := "cid-1"
          , output := "<script>alert(1)</script>"
          , tool_calls := [] } := by
  decide

/-- Claim C8 amended: in every output mode the final text produced by the
agent loop is emitted verbatim after whitespace stripping; no escaping of
upstream content is applied. -/
theorem C8_amended_output_verbatim (req : AgentRunRequest)
    (freshUuid fallbackText t : String) (invs : List ToolInvocation)
    (h : pyStrip t ≠ "") :
    agent_run req freshUuid (fun _ => ⟨invs, .finalText t⟩) fallbackText none =
      .ok { correlation_id := orElseStr req.correlation_id freshUuid
          , output := pyStrip t
          , tool_calls := [] } := by
  rw [agent_run_finalText req freshUuid _ fallbackText none t rfl]
  unfold _extract_text
  rw [if_pos h]

/-- Witness for the amended C8 at concrete inputs: markup in the final text
reaches the response unchanged. -/
theorem C8_amended_witness :
    agent_run reqHtml "uuid-8b" (fun _ => ⟨[], .finalText "<b>x</b>"⟩)
        "fallback" none =
      .ok { correlation_id := "cid-1", output := "<b>x</b>",
            tool_calls := [] } :=
  C8_amended_output_verbatim reqHtml "uuid-8b" "fallback" "<b>x</b>" []
    (by decide)

/-- Counterexample to claim C9 at concrete inputs: a run in which a tool
operation was executed and failed produces a 200 response identical to the
response of a clean run with no operation at all, so the final output does
not distinguish a failed-upstream run from a succeeded one; the failure is
silently swallowed. -/
theorem C9_counterexample :
    agent_run reqWithCid "uuid-9" behaveClean "fallback" none =
      agent_run reqWithCid "uuid-9" behaveFailedTool "fallback" none
    ∧ executedOperations reqWithCid "uuid-9" behaveClean = []
    ∧ executedOperations reqWithCid "uuid-9" behaveFailedTool =
        [.eligibility "T-1" (some "cid-1")]
    ∧ (execInvocation c0 respond200 (.eligibility "T-1" (some "cid-1"))).1 =
        .error (.attributeError "PegaClient" "post") := by
  exact ⟨by decide, by decide, by decide, rfl⟩

/-- Claim C9 amended: every run terminates in exactly one of two output
shapes, a 200 response carrying the run correlation id and the free text of
the agent, or a generic 500 response whose detail starts with the fixed
prefix Agent run failed; neither shape encodes the succeeded,
stopped-by-policy or failed-upstream classes, and tool failures handled
inside the external loop leave no trace in the output. -/
theorem C9_amended_two_outcome_shapes (req : AgentRunRequest)
    (freshUuid : String) (behave : String → AgentBehavior)
    (fallbackText : String) (debugAttr : Option String) :
    (∃ resp, agent_run req freshUuid behave fallbackText debugAttr = .ok resp
        ∧ resp.correlation_id = orElseStr req.correlation_id freshUuid)
    ∨ (∃ e, agent_run req freshUuid behave fallbackText debugAttr =
        .httpError 500 ("Agent run failed: " ++ e)) := by
  rcases hb : (behave (buildPrompt (orElseStr req.correlation_id freshUuid)
      req.output req.prompt)).final with t | e
  · exact Or.inl ⟨_,
      agent_run_finalText req freshUuid behave fallbackText debugAttr t hb, rfl⟩
  · exact Or.inr ⟨e,
      agent_run_raised req freshUuid behave fallbackText debugAttr e hb⟩

/-- Claim C10: when `PEGA_BASE_URL`, `PEGA_BASIC_USERNAME` or
`PEGA_BASIC_PASSWORD` is absent (or, for the credentials, empty), client
construction raises (`KeyError` resp. `RuntimeError`); since `main.py`
constructs the client at module import, the service fails at startup and no
workflow run is ever executed. -/
theorem C10_missing_config_fails_startup (env : Env) (req : AgentRunRequest)
    (freshUuid : String) (behave : String → AgentBehavior)
    (fallbackText : String) (debugAttr : Option String)
    (h : env.get "PEGA_BASE_URL" = none
      ∨ pyFalsy (env.get "PEGA_BASIC_USERNAME") = true
      ∨ pyFalsy (env.get "PEGA_BASIC_PASSWORD") = true) :
    (∃ e, PegaClient.init env = .error e)
    ∧ serviceRun env req freshUuid behave fallbackText debugAttr = none := by
  have hinit : ∃ e, PegaClient.init env = .error e := by
    unfold PegaClient.init
    rcases hb : env.get "PEGA_BASE_URL" with _ | burl
    · exact ⟨_, rfl⟩
    · have hcred : pyFalsy (env.get "PEGA_BASIC_USERNAME") = true
          ∨ pyFalsy (env.get "PEGA_BASIC_PASSWORD") = true := by
        rcases h with h | h | h
        · rw [hb] at h
          cases h
        · exact Or.inl h
        · exact Or.inr h
      have hcond : (pyFalsy (env.get "PEGA_BASIC_USERNAME")
          || pyFalsy (env.get "PEGA_BASIC_PASSWORD")) = true := by
        rcases hcred with h2 | h2 <;> simp [h2]
      simp only [hcond]
      exact ⟨_, rfl⟩
  refine ⟨hinit, ?_⟩
  rcases hinit with ⟨e, he⟩
  simp [serviceRun, he]

/-- Witness for C10 at concrete inputs: the empty environment makes client
construction fail and no run executes. -/
theorem C10_witness :
    (∃ e, PegaClient.init env0 = .error e)
    ∧ serviceRun env0 reqNoCid "uuid-10" behaveClean "fallback" none = none :=
  C10_missing_config_fails_startup env0 reqNoCid "uuid-10" behaveClean
    "fallback" none (Or.inl rfl)

end MCR
